import Mathlib

set_option maxRecDepth 16384
set_option maxHeartbeats 1000000

namespace AIPower

/-!
Shallow embedding of `src/main.py` (the "AI Power API" FastAPI backend).

Strings are Lean `String`.  The Python `str` helpers that the source uses
(`strip`, `lower`, `split`, `join`, `textwrap.fill`) are embedded below on
`String` / `List Char`.  CPython's built-in `hash` on strings is randomized
per process (PYTHONHASHSEED), so it is embedded as an explicit function
parameter `pyHash : String → Int`: one fixed `pyHash` models one process run.
-/

/-- Whitespace class of Python's `str.strip()` / `str.split()` (the ASCII
part; none of the strings in the source contain exotic Unicode spaces). -/
def isPySpace (c : Char) : Bool :=
  c == ' ' || c == '\t' || c == '\n' || c == '\r' || c == '\u000B' || c == '\u000C'

/-- Embedding of `str.strip()` on the underlying character list: drop
leading whitespace, then drop trailing whitespace. -/
def stripList (l : List Char) : List Char :=
  ((l.dropWhile isPySpace).reverse.dropWhile isPySpace).reverse

/-- Embedding of `str.strip()` (`req.prompt.strip()` in the source). -/
def pyStrip (s : String) : String := String.mk (stripList s.data)

/-- Embedding of `str.lower()`.  Lean's `Char.toLower` lowercases ASCII
letters, which agrees with Python on the ASCII strings the source compares. -/
def pyLower (s : String) : String := String.mk (s.data.map Char.toLower)

/-- Accumulator pass behind `str.split()` (no separator argument): the
maximal whitespace-free runs of the input, in order.  `cur` holds the
current run, reversed. -/
def wordsAux (cur : List Char) : List Char → List (List Char)
  | [] => if cur.isEmpty then [] else [cur.reverse]
  | c :: cs =>
    if isPySpace c then
      if cur.isEmpty then wordsAux [] cs else cur.reverse :: wordsAux [] cs
    else wordsAux (c :: cur) cs

/-- Embedding of `str.split()`: split on whitespace runs, no empty parts. -/
def pySplitWS (s : String) : List String := (wordsAux [] s.data).map String.mk

/-- Embedding of `sep.join(parts)`. -/
def joinSep (sep : String) : List String → String
  | [] => ""
  | [x] => x
  | x :: y :: t => x ++ sep ++ joinSep sep (y :: t)

/-- Greedy line filling over a word list, the algorithm `textwrap.fill`
performs on inputs whose words are separated by single spaces (the only
inputs the source wraps). -/
def fillAux (width : Nat) : List String → String → String
  | [], line => line
  | w :: ws, line =>
    if line == "" then fillAux width ws w
    else if line.length + 1 + w.length ≤ width then fillAux width ws (line ++ " " ++ w)
    else line ++ "\n" ++ fillAux width ws w

/-- Embedding of `textwrap.fill(s, width)`. -/
def pyFill (width : Nat) (s : String) : String := fillAux width (pySplitWS s) ""

/-- `SAMPLE_PROMPT` (src/main.py line 52), the fixed reference prompt. -/
def SAMPLE_PROMPT : String :=
  "Describe the future of AI in space exploration, with stunning visuals of advanced spacecraft."

/-- `SAMPLE_TEXT` (src/main.py lines 53-64), the fixed reference essay; the
operands mirror the adjacent Python string literals. -/
def SAMPLE_TEXT : String :=
  "AI in space exploration is poised to revolutionize humanity's understanding and presence beyond Earth. "
  ++ "Imagine autonomous probes that can identify and analyze exoplanets with unprecedented speed, making real-time "
  ++ "decisions about sample collection and data transmission. Swarms of AI-powered nanobots could construct "
  ++ "self-repairing habitats on Mars or the Moon, using local resources with minimal human intervention.\n\n"
  ++ "Further into the future, AI will be central to managing vast interstellar voyages. It will handle complex navigation, "
  ++ "life support systems, and scientific data processing, freeing human astronauts to focus on discovery. AI companions "
  ++ "will provide psychological support and act as expert assistants, capable of diagnosing system failures or identifying "
  ++ "new biological lifeforms. From optimizing fuel efficiency for deep-space missions to enabling communication across "
  ++ "light-years, AI is not just a tool; it's becoming an indispensable partner in our cosmic journey, pushing the "
  ++ "boundaries of what's possible."

/-- The error raised by `HTTPException(status_code=..., detail=...)`. -/
structure HttpError where
  status : Nat
  detail : String
  deriving DecidableEq

/-- Response model of `/api/generate/text`. -/
structure TextResponse where
  prompt : String
  text : String
  deriving DecidableEq

/-- Response model of `/api/generate/image`. -/
structure ImageResponse where
  prompt : String
  data_url : String
  format : String
  deriving DecidableEq

/-- Response model of `/api/generate/script`. -/
structure ScriptResponse where
  prompt : String
  script : String
  estimated_minutes : Nat
  deriving DecidableEq

/-- The constant remainder of the templated essay of `generate_text`
(src/main.py lines 78-85): everything after the interpolated opening. -/
def visionBodyRest : String :=
  "1) Foundation: Modern AI systems coordinate sensing, planning, and action across a network of agents.\n"
  ++ "2) Experience: Natural, multimodal interaction translates ideas into high‑fidelity media and simulations.\n"
  ++ "3) Reliability: Safety, monitoring, and self‑healing keep complex missions resilient.\n\n"
  ++ "Zooming in, expect rapid iteration cycles: models reason over live data, generate options, then test them in fast,\n"
  ++ "physics‑aware sandboxes. The result is a virtuous loop of design → simulation → deployment, guided by human intent\n"
  ++ "and transparent constraints.\n\n"
  ++ "In practice, this means better decisions, richer creativity, and systems that collaborate with us—augmenting human\n"
  ++ "judgment rather than replacing it."

/-- `generate_text` (src/main.py lines 66-87): POST `/api/generate/text`. -/
def generate_text (req : String) : Except HttpError TextResponse :=
  let prompt := pyStrip req
  if prompt = "" then .error ⟨400, "Prompt is required"⟩
  else if pyLower prompt = pyLower SAMPLE_PROMPT then .ok ⟨prompt, SAMPLE_TEXT⟩
  else .ok ⟨prompt, "Here's a concise vision for '" ++ prompt ++ "':\n\n" ++ visionBodyRest⟩

/-- `COLORS` (src/main.py lines 113-118): the 4-entry gradient palette. -/
def COLORS : List (String × String) :=
  [("#60a5fa", "#a78bfa"), ("#22d3ee", "#818cf8"), ("#34d399", "#06b6d4"), ("#f472b6", "#60a5fa")]

/-- The palette entry `COLORS[abs(hash(prompt)) % len(COLORS)]` selected in
`svg_for_prompt` (src/main.py lines 121-122), with the process's string hash
passed explicitly. -/
def gradientPair (pyHash : String → Int) (prompt : String) : String × String :=
  COLORS.getD ((pyHash prompt).natAbs % COLORS.length) ("", "")

/-- `svg_for_prompt` (src/main.py lines 120-134) at its default size
`w=1200, h=675` (the only size the source uses).  The Python float layout
values (`cx=w*0.7` and so on) are inlined as their exact `str.format`
renderings: cx=840.0, cy=270.0, r=168.75, w2=600.0, w3=900.0, w4=300.0,
cy2=135.0, cy3=540.0, h3=506.25, h4=168.75 (h2=337.5 is computed by the
source but unused by the template).  Each `format` placeholder of
`SVG_TEMPLATE` (lines 90-111) appears as its own `++` operand. -/
def svg_for_prompt (pyHash : String → Int) (prompt : String) : String :=
  let c := gradientPair pyHash prompt
  let subtitle := prompt.take 90 ++ (if 90 < prompt.length then "…" else "")
  "\n<svg xmlns='http://www.w3.org/2000/svg' "
  ++ "width='1200'" ++ " " ++ "height='675'" ++ " viewBox='0 0 1200 675'>\n"
  ++ "  <defs>\n    <linearGradient id='g' x1='0' y1='0' x2='1' y2='1'>\n      <stop offset='0%' stop-color='"
  ++ c.1
  ++ "' />\n      <stop offset='100%' stop-color='"
  ++ c.2
  ++ "' />\n    </linearGradient>\n    <filter id='glow' x='-50%' y='-50%' width='200%' height='200%'>\n"
  ++ "      <feGaussianBlur stdDeviation='8' result='blur'/>\n"
  ++ "      <feMerge><feMergeNode in='blur'/><feMergeNode in='SourceGraphic'/></feMerge>\n"
  ++ "    </filter>\n  </defs>\n  <rect width='100%' height='100%' fill='black' />\n"
  ++ "  <circle cx='840.0' cy='270.0' r='168.75' fill='url(#g)' filter='url(#glow)' opacity='0.9'/>\n"
  ++ "  <g fill='none' stroke='white' stroke-opacity='0.7'>\n"
  ++ "    <path d='M 0 270.0 C 300.0 135.0 600.0 540.0 1200 270.0' stroke='url(#g)' stroke-width='2'/>\n"
  ++ "    <path d='M 600.0 0 C 900.0 168.75 300.0 506.25 600.0 675' stroke='url(#g)' stroke-width='1.5' stroke-dasharray='6 6'/>\n"
  ++ "  </g>\n  <text x='32' y='48' font-size='20' fill='white' font-family='Inter, system-ui, -apple-system, Segoe UI, Roboto'>AI Power · "
  ++ "Futuristic Visual"
  ++ "</text>\n  <text x='32' y='72' font-size='12' fill='#cbd5e1' font-family='Inter, system-ui, -apple-system, Segoe UI, Roboto'>\""
  ++ subtitle
  ++ "\"</text>\n</svg>\n"

/-- The base64 alphabet used by `base64.b64encode`. -/
def b64Alphabet : List Char :=
  "ABCDEFGHIJKLMNOPQRSTUVWXYZabcdefghijklmnopqrstuvwxyz0123456789+/".data

/-- Character for a 6-bit group. -/
def b64Char (n : Nat) : Char := b64Alphabet.getD n '?'

/-- Embedding of `base64.b64encode` on byte values: 3 bytes to 4 characters,
with `=` padding on a short final group. -/
def b64Encode : List Nat → List Char
  | b1 :: b2 :: b3 :: rest =>
    b64Char (b1 / 4) :: b64Char (b1 % 4 * 16 + b2 / 16)
      :: b64Char (b2 % 16 * 4 + b3 / 64) :: b64Char (b3 % 64) :: b64Encode rest
  | [b1, b2] => [b64Char (b1 / 4), b64Char (b1 % 4 * 16 + b2 / 16), b64Char (b2 % 16 * 4), '=']
  | [b1] => [b64Char (b1 / 4), b64Char (b1 % 4 * 16), '=', '=']
  | [] => []

/-- Position of a character in the base64 alphabet. -/
def b64IndexAux (i : Nat) : List Char → Char → Option Nat
  | [], _ => none
  | a :: as, c => if c = a then some i else b64IndexAux (i + 1) as c

/-- Value of a base64 character, `none` when it is not in the alphabet. -/
def b64Index (c : Char) : Option Nat := b64IndexAux 0 b64Alphabet c

/-- Standard base64 decoding: 4 characters to 3 bytes, honouring `=`
padding at the end. -/
def b64Decode : List Char → Option (List Nat)
  | [] => some []
  | c1 :: c2 :: c3 :: c4 :: rest =>
    match b64Index c1, b64Index c2 with
    | some s1, some s2 =>
      if c3 = '=' then
        if c4 = '=' then if rest = [] then some [s1 * 4 + s2 / 16] else none else none
      else
        match b64Index c3 with
        | some s3 =>
          if c4 = '=' then
            if rest = [] then some [s1 * 4 + s2 / 16, s2 % 16 * 16 + s3 / 4] else none
          else
            match b64Index c4 with
            | some s4 =>
              (b64Decode rest).map
                (fun bs => (s1 * 4 + s2 / 16) :: (s2 % 16 * 16 + s3 / 4) :: (s3 % 4 * 64 + s4) :: bs)
            | none => none
        | none => none
    | _, _ => none
  | _ => none

/-- UTF-8 encoding of a single code point, as byte values. -/
def utf8Char (n : Nat) : List Nat :=
  if n < 128 then [n]
  else if n < 2048 then [192 + n / 64, 128 + n % 64]
  else if n < 65536 then [224 + n / 4096, 128 + n / 64 % 64, 128 + n % 64]
  else [240 + n / 262144, 128 + n / 4096 % 64, 128 + n / 64 % 64, 128 + n % 64]

/-- Embedding of `s.encode("utf-8")`, as byte values. -/
def utf8Bytes (s : String) : List Nat := (s.data.map (fun c => utf8Char c.toNat)).flatten

/-- `generate_image` (src/main.py lines 136-145): POST `/api/generate/image`.
The response embeds the SVG as `data:image/svg+xml;base64,<payload>`. -/
def generate_image (pyHash : String → Int) (req : String) : Except HttpError ImageResponse :=
  let prompt := pyStrip req
  if prompt = "" then .error ⟨400, "Prompt is required"⟩
  else
    let svg := svg_for_prompt pyHash prompt
    let b64 := String.mk (b64Encode (utf8Bytes svg))
    .ok ⟨prompt, "data:image/svg+xml;base64," ++ b64, "image/svg+xml"⟩

/-- The 10 fixed topic sections of the podcast script (src/main.py lines
161-172), in source order. -/
def sections : List String :=
  [ "Origins: how autonomy moved from labs to deep space.",
    "Sensing: fusing multi-spectral data, onboard learning, and anomaly detection.",
    "Planning: model-predictive control, uncertainty, and responsible decision-making.",
    "Construction: self-assembling infrastructure and in-situ resource utilization.",
    "Health: predictive maintenance and closed-loop life-support.",
    "Human factors: copilots for cognition, creativity, and care during long missions.",
    "Interstellar scale: coordination under extreme latency and sparse information.",
    "Ethics and governance: verifiability, transparency, and alignment.",
    "Frontiers: biological discovery, terraforming aids, and cosmic archaeology.",
    "Closing: a vision of collaborative intelligence among stars." ]

/-- The fixed elaboration paragraph repeated to pad the script
(src/main.py lines 178-182). -/
def elaboration : String :=
  "Imagine the choreography: swarms negotiate roles, exchange compressed world models, and rehearse actions in fast "
  ++ "simulations before a single thruster fires. Each success feeds a continuously improving library of tactics, "
  ++ "grounded by telemetry and human feedback."

/-- The opening line of the script (src/main.py lines 153-159): fixed when
the prompt matches `SAMPLE_PROMPT` case-insensitively, templated otherwise. -/
def scriptBase (prompt : String) : String :=
  if pyLower prompt = pyLower SAMPLE_PROMPT then
    "Welcome to AI Power. In today's episode, we explore the future of AI in space exploration—how intelligent systems "
    ++ "will expand our reach and resilience beyond Earth. "
  else
    "Welcome to AI Power. Today's episode explores: " ++ prompt ++ ". "

/-- The `while` loop of src/main.py lines 184-187: append copies of
`elaboration` until `len(" ".join(expanded_blocks).split())` reaches 1200.
Well-founded over the missing word count; the decreasing proof shows each
appended copy adds the paragraph's 36 words. -/
def expandBlocksLoop (blocks : List String) : List String :=
  if h : (pySplitWS (joinSep " " blocks)).length < 1200 then
    expandBlocksLoop (blocks ++ [elaboration])
  else blocks
termination_by 1200 - (pySplitWS (joinSep " " blocks)).length
decreasing_by
  have hkey : ∀ (a cur s : List Char),
      wordsAux cur (a ++ ' ' :: s) = wordsAux cur a ++ wordsAux [] s := by
    intro a
    induction a with
    | nil =>
      intro cur s
      have hsp : isPySpace ' ' = true := by decide
      by_cases hc : cur.isEmpty <;> simp [wordsAux, hsp, hc]
    | cons c a ih =>
      intro cur s
      by_cases hc : isPySpace c
      · by_cases hcur : cur.isEmpty <;> simp [wordsAux, hc, hcur, ih]
      · simp [wordsAux, hc, ih]
  have hjoin : ∀ (t : List String) (y x : String),
      joinSep " " ((y :: t) ++ [x]) = joinSep " " (y :: t) ++ " " ++ x := by
    intro t
    induction t with
    | nil => intro y x; simp [joinSep]
    | cons z t2 ih =>
      intro y x
      show joinSep " " (y :: z :: (t2 ++ [x])) = _
      simp only [joinSep]
      rw [← List.cons_append, ih]
      simp [String.append_assoc]
  have hcount : ∀ (bs : List String),
      (pySplitWS (joinSep " " (bs ++ [elaboration]))).length
        = (pySplitWS (joinSep " " bs)).length + 36 := by
    intro bs
    cases bs with
    | nil => decide
    | cons y t =>
      rw [hjoin]
      have hdata : (joinSep " " (y :: t) ++ " " ++ elaboration).data
          = (joinSep " " (y :: t)).data ++ ' ' :: elaboration.data := by
        simp [String.data_append]
      simp only [pySplitWS, hdata, hkey, List.length_map, List.length_append]
      have : (wordsAux [] elaboration.data).length = 36 := by decide
      omega
  rw [hcount]
  omega

/-- `generate_podcast_script` (src/main.py lines 147-189): POST
`/api/generate/script`. -/
def generate_podcast_script (req : String) : Except HttpError ScriptResponse :=
  let prompt := pyStrip req
  if prompt = "" then .error ⟨400, "Prompt is required"⟩
  else
    let base := scriptBase prompt
    let paragraphs := sections.map (pyFill 100)
    let script := base ++ "\n\n" ++ joinSep "\n\n" paragraphs
    let expanded_blocks := expandBlocksLoop []
    let script2 := script ++ "\n\n" ++ joinSep "\n\n" expanded_blocks
    .ok ⟨prompt, script2, 10⟩

/-- Substring containment: `t` occurs literally inside `s`. -/
def containsStr (s t : String) : Prop := ∃ a b : String, s = a ++ t ++ b

/-! ### Library-style lemmas about the embedded Python string helpers -/

theorem length_dropWhile_le (p : α → Bool) (l : List α) :
    (l.dropWhile p).length ≤ l.length := by
  induction l with
  | nil => simp
  | cons c t ih =>
    by_cases hc : p c <;> simp [List.dropWhile_cons, hc] <;> omega

theorem dropWhile_dropWhile (p : α → Bool) (l : List α) :
    (l.dropWhile p).dropWhile p = l.dropWhile p := by
  induction l with
  | nil => rfl
  | cons c t ih =>
    by_cases hc : p c <;> simp [List.dropWhile_cons, hc, ih]

theorem dropWhile_append_all (p : α → Bool) (u y : List α) (hu : ∀ c ∈ u, p c) :
    (u ++ y).dropWhile p = y.dropWhile p := by
  induction u with
  | nil => rfl
  | cons c t ih =>
    simp only [List.cons_append, List.dropWhile_cons, hu c (by simp)]
    exact ih fun c hc => hu c (by simp [hc])

theorem dropWhile_prefix_fixed (p : α → Bool) {x y : List α}
    (hx : x.dropWhile p = x) (hxy : y <+: x) : y.dropWhile p = y := by
  cases y with
  | nil => rfl
  | cons c t =>
    obtain ⟨rest, hrest⟩ := hxy
    by_cases hc : p c
    · exfalso
      rw [← hrest, List.cons_append, List.dropWhile_cons, if_pos hc] at hx
      have h1 := length_dropWhile_le p (t ++ rest)
      have h2 := congrArg List.length hx
      simp only [List.length_cons, List.length_append] at h1 h2
      omega
    · simp [List.dropWhile_cons, hc]

/-- The right-strip half of `str.strip()`. -/
theorem stripRight_front (l : List Char) :
    (l.reverse.dropWhile isPySpace).reverse <+: l := by
  have h2 := List.reverse_prefix.mpr (List.dropWhile_suffix (l := l.reverse) isPySpace)
  rw [List.reverse_reverse] at h2
  exact h2

theorem stripList_no_lead (l : List Char) :
    (stripList l).dropWhile isPySpace = stripList l := by
  unfold stripList
  exact dropWhile_prefix_fixed isPySpace (dropWhile_dropWhile isPySpace l)
    (stripRight_front (l.dropWhile isPySpace))

theorem stripList_idem (l : List Char) : stripList (stripList l) = stripList l := by
  unfold stripList
  rw [show ((((l.dropWhile isPySpace).reverse.dropWhile isPySpace).reverse.dropWhile
      isPySpace)) = ((l.dropWhile isPySpace).reverse.dropWhile isPySpace).reverse from
    stripList_no_lead l]
  rw [List.reverse_reverse, dropWhile_dropWhile]

theorem pyStrip_idem (s : String) : pyStrip (pyStrip s) = pyStrip s := by
  simp [pyStrip, stripList_idem]

theorem stripList_pad (u l v : List Char) (hu : ∀ c ∈ u, isPySpace c)
    (hv : ∀ c ∈ v, isPySpace c) : stripList (u ++ l ++ v) = stripList l := by
  unfold stripList
  rw [List.append_assoc, dropWhile_append_all isPySpace u (l ++ v) hu]
  by_cases hl : l.dropWhile isPySpace = []
  · have hlv : (l ++ v).dropWhile isPySpace = [] := by
      rw [List.dropWhile_append]
      simp [hl, List.dropWhile_eq_nil_iff.mpr hv]
    simp [hlv, hl]
  · have hlv : (l ++ v).dropWhile isPySpace = l.dropWhile isPySpace ++ v := by
      rw [List.dropWhile_append]
      simp [hl]
    rw [hlv, List.reverse_append,
      dropWhile_append_all isPySpace v.reverse (l.dropWhile isPySpace).reverse
        (fun c hc => hv c (List.mem_reverse.mp hc))]

theorem pyStrip_pad (u p v : String) (hu : ∀ c ∈ u.data, isPySpace c)
    (hv : ∀ c ∈ v.data, isPySpace c) : pyStrip (u ++ p ++ v) = pyStrip p := by
  simp only [pyStrip, String.data_append]
  rw [stripList_pad u.data p.data v.data hu hv]

theorem wordsAux_ws_append (c : Char) (hc : isPySpace c = true) :
    ∀ (a cur s : List Char), wordsAux cur (a ++ c :: s) = wordsAux cur a ++ wordsAux [] s := by
  intro a
  induction a with
  | nil =>
    intro cur s
    by_cases hcur : cur.isEmpty <;> simp [wordsAux, hc, hcur]
  | cons d a ih =>
    intro cur s
    by_cases hd : isPySpace d
    · by_cases hcur : cur.isEmpty <;> simp [wordsAux, hd, hcur, ih]
    · simp [wordsAux, hd, ih]

theorem wordsAux_nil_ws (c : Char) (hc : isPySpace c = true) (s : List Char) :
    wordsAux [] (c :: s) = wordsAux [] s := by
  simp [wordsAux, hc]

theorem joinSep_concat (sep : String) :
    ∀ (t : List String) (y x : String),
      joinSep sep ((y :: t) ++ [x]) = joinSep sep (y :: t) ++ sep ++ x := by
  intro t
  induction t with
  | nil => intro y x; simp [joinSep]
  | cons z t2 ih =>
    intro y x
    show joinSep sep (y :: z :: (t2 ++ [x])) = _
    simp only [joinSep]
    rw [← List.cons_append, ih]
    simp [String.append_assoc]

theorem count_space_concat (bs : List String) (x : String) :
    (pySplitWS (joinSep " " (bs ++ [x]))).length
      = (pySplitWS (joinSep " " bs)).length + (pySplitWS x).length := by
  cases bs with
  | nil =>
    rw [show joinSep " " ([] ++ [x]) = x from rfl, show pySplitWS (joinSep " " []) = [] from rfl]
    simp
  | cons y t =>
    rw [joinSep_concat]
    have hdata : (joinSep " " (y :: t) ++ " " ++ x).data
        = (joinSep " " (y :: t)).data ++ ' ' :: x.data := by
      simp [String.data_append]
    simp only [pySplitWS, hdata, wordsAux_ws_append ' ' (by decide), List.length_map,
      List.length_append]

theorem count_nn_concat (bs : List String) (x : String) :
    (pySplitWS (joinSep "\n\n" (bs ++ [x]))).length
      = (pySplitWS (joinSep "\n\n" bs)).length + (pySplitWS x).length := by
  cases bs with
  | nil =>
    rw [show joinSep "\n\n" ([] ++ [x]) = x from rfl,
      show pySplitWS (joinSep "\n\n" []) = [] from rfl]
    simp
  | cons y t =>
    rw [joinSep_concat]
    have hdata : (joinSep "\n\n" (y :: t) ++ "\n\n" ++ x).data
        = (joinSep "\n\n" (y :: t)).data ++ '\n' :: '\n' :: x.data := by
      simp [String.data_append]
    simp only [pySplitWS, hdata, wordsAux_ws_append '\n' (by decide),
      wordsAux_nil_ws '\n' (by decide), List.length_map, List.length_append]

theorem count_space_replicate :
    ∀ k, (pySplitWS (joinSep " " (List.replicate k elaboration))).length = k * 36 := by
  intro k
  induction k with
  | zero => rfl
  | succ k ih =>
    rw [List.replicate_succ', count_space_concat, ih,
      show (pySplitWS elaboration).length = 36 from by decide]
    omega

theorem count_nn_replicate :
    ∀ k, (pySplitWS (joinSep "\n\n" (List.replicate k elaboration))).length = k * 36 := by
  intro k
  induction k with
  | zero => rfl
  | succ k ih =>
    rw [List.replicate_succ', count_nn_concat, ih,
      show (pySplitWS elaboration).length = 36 from by decide]
    omega

theorem expandBlocksLoop_replicate : ∀ (j k : Nat), k + j = 34 →
    expandBlocksLoop (List.replicate k elaboration) = List.replicate 34 elaboration := by
  intro j
  induction j with
  | zero =>
    intro k hk
    have hk34 : k = 34 := by omega
    subst hk34
    rw [expandBlocksLoop]
    rw [dif_neg]
    rw [count_space_replicate]
    omega
  | succ j ih =>
    intro k hk
    rw [expandBlocksLoop]
    rw [dif_pos]
    · rw [← List.replicate_succ']
      exact ih (k + 1) (by omega)
    · rw [count_space_replicate]
      omega

/-- The loop of src/main.py lines 184-187 stops after exactly 34 copies of
the elaboration paragraph. -/
theorem expandBlocks_eq : expandBlocksLoop [] = List.replicate 34 elaboration :=
  expandBlocksLoop_replicate 34 0 rfl

/-! ### Unfolding lemmas for the three endpoints -/

theorem generate_text_err (p : String) (h : pyStrip p = "") :
    generate_text p = .error ⟨400, "Prompt is required"⟩ := by
  simp [generate_text, h]

theorem generate_text_ok (p : String) (h : pyStrip p ≠ "") :
    generate_text p =
      if pyLower (pyStrip p) = pyLower SAMPLE_PROMPT then .ok ⟨pyStrip p, SAMPLE_TEXT⟩
      else .ok ⟨pyStrip p,
        "Here's a concise vision for '" ++ pyStrip p ++ "':\n\n" ++ visionBodyRest⟩ := by
  simp [generate_text, h]

theorem generate_image_err (pyHash : String → Int) (p : String) (h : pyStrip p = "") :
    generate_image pyHash p = .error ⟨400, "Prompt is required"⟩ := by
  simp [generate_image, h]

theorem generate_image_ok (pyHash : String → Int) (p : String) (h : pyStrip p ≠ "") :
    generate_image pyHash p = .ok ⟨pyStrip p,
      "data:image/svg+xml;base64,"
        ++ String.mk (b64Encode (utf8Bytes (svg_for_prompt pyHash (pyStrip p)))),
      "image/svg+xml"⟩ := by
  simp [generate_image, h]

theorem generate_script_err (p : String) (h : pyStrip p = "") :
    generate_podcast_script p = .error ⟨400, "Prompt is required"⟩ := by
  simp [generate_podcast_script, h]

theorem generate_script_ok (p : String) (h : pyStrip p ≠ "") :
    generate_podcast_script p = .ok ⟨pyStrip p,
      scriptBase (pyStrip p) ++ "\n\n" ++ joinSep "\n\n" (sections.map (pyFill 100))
        ++ "\n\n" ++ joinSep "\n\n" (expandBlocksLoop []),
      10⟩ := by
  simp [generate_podcast_script, h]

theorem generate_text_congr (a b : String) (h : pyStrip a = pyStrip b) :
    generate_text a = generate_text b := by
  simp only [generate_text, h]

theorem generate_image_congr (pyHash : String → Int) (a b : String)
    (h : pyStrip a = pyStrip b) : generate_image pyHash a = generate_image pyHash b := by
  simp only [generate_image, h]

theorem generate_script_congr (a b : String) (h : pyStrip a = pyStrip b) :
    generate_podcast_script a = generate_podcast_script b := by
  simp only [generate_podcast_script, h]

/-! ### Base64 and UTF-8 lemmas -/

theorem b64Index_b64Char : ∀ n, n < 64 → b64Index (b64Char n) = some n := by decide

theorem b64Char_ne_pad : ∀ n, n < 64 → b64Char n ≠ '=' := by decide

/-- Base64 decoding inverts base64 encoding on byte values. -/
theorem b64_roundtrip : ∀ (l : List Nat), (∀ b ∈ l, b < 256) →
    b64Decode (b64Encode l) = some l
  | [], _ => rfl
  | [b1], h => by
    have hb1 : b1 < 256 := h b1 (by simp)
    have e1 : b64Index (b64Char (b1 / 4)) = some (b1 / 4) := b64Index_b64Char _ (by omega)
    have e2 : b64Index (b64Char (b1 % 4 * 16)) = some (b1 % 4 * 16) :=
      b64Index_b64Char _ (by omega)
    simp [b64Encode, b64Decode, e1, e2]
    omega
  | [b1, b2], h => by
    have hb1 : b1 < 256 := h b1 (by simp)
    have hb2 : b2 < 256 := h b2 (by simp)
    have e1 : b64Index (b64Char (b1 / 4)) = some (b1 / 4) := b64Index_b64Char _ (by omega)
    have e2 : b64Index (b64Char (b1 % 4 * 16 + b2 / 16)) = some (b1 % 4 * 16 + b2 / 16) :=
      b64Index_b64Char _ (by omega)
    have e3 : b64Index (b64Char (b2 % 16 * 4)) = some (b2 % 16 * 4) :=
      b64Index_b64Char _ (by omega)
    have hne : b64Char (b2 % 16 * 4) ≠ '=' := b64Char_ne_pad _ (by omega)
    simp [b64Encode, b64Decode, e1, e2, e3, hne]
    omega
  | b1 :: b2 :: b3 :: rest, h => by
    have hb1 : b1 < 256 := h b1 (by simp)
    have hb2 : b2 < 256 := h b2 (by simp)
    have hb3 : b3 < 256 := h b3 (by simp)
    have ih := b64_roundtrip rest (fun b hb => h b (by simp [hb]))
    have e1 : b64Index (b64Char (b1 / 4)) = some (b1 / 4) := b64Index_b64Char _ (by omega)
    have e2 : b64Index (b64Char (b1 % 4 * 16 + b2 / 16)) = some (b1 % 4 * 16 + b2 / 16) :=
      b64Index_b64Char _ (by omega)
    have e3 : b64Index (b64Char (b2 % 16 * 4 + b3 / 64)) = some (b2 % 16 * 4 + b3 / 64) :=
      b64Index_b64Char _ (by omega)
    have e4 : b64Index (b64Char (b3 % 64)) = some (b3 % 64) := b64Index_b64Char _ (by omega)
    have hne3 : b64Char (b2 % 16 * 4 + b3 / 64) ≠ '=' := b64Char_ne_pad _ (by omega)
    have hne4 : b64Char (b3 % 64) ≠ '=' := b64Char_ne_pad _ (by omega)
    simp [b64Encode, b64Decode, e1, e2, e3, e4, hne3, hne4, ih]
    omega

theorem utf8Char_lt256 (n : Nat) (h : n < 1114112) : ∀ b ∈ utf8Char n, b < 256 := by
  intro b hb
  by_cases h1 : n < 128
  · simp [utf8Char, h1] at hb
    omega
  · by_cases h2 : n < 2048
    · simp [utf8Char, h1, h2] at hb
      rcases hb with hb | hb <;> omega
    · by_cases h3 : n < 65536
      · simp [utf8Char, h1, h2, h3] at hb
        rcases hb with hb | hb | hb <;> omega
      · simp [utf8Char, h1, h2, h3] at hb
        rcases hb with hb | hb | hb | hb <;> omega

theorem utf8Bytes_lt256 (s : String) : ∀ b ∈ utf8Bytes s, b < 256 := by
  intro b hb
  simp only [utf8Bytes, List.mem_flatten, List.mem_map] at hb
  obtain ⟨l, ⟨c, hc, rfl⟩, hbl⟩ := hb
  have hv : c.toNat < 1114112 := by
    rcases c.valid with h1 | h1 <;> simp [Char.toNat] <;> omega
  exact utf8Char_lt256 _ hv b hbl

/-! ### Substring containment helpers -/

theorem containsStr_appR {s t : String} (h : containsStr s t) (y : String) :
    containsStr (s ++ y) t := by
  obtain ⟨a, b, rfl⟩ := h
  exact ⟨a, b ++ y, by simp [String.append_assoc]⟩

theorem containsStr_appL {s t : String} (x : String) (h : containsStr s t) :
    containsStr (x ++ s) t := by
  obtain ⟨a, b, rfl⟩ := h
  exact ⟨x ++ a, b, by simp [String.append_assoc]⟩

theorem containsStr_left (x t : String) : containsStr (x ++ t) t :=
  ⟨x, "", by simp⟩

theorem containsStr_right (t y : String) : containsStr (t ++ y) t :=
  ⟨"", y, by simp⟩

/-! ### The claims -/

/-- Claim C1: the spec asks that the gradient pair selected for a prompt be
stable across process runs, but the code computes
`COLORS[abs(hash(prompt)) % len(COLORS)]` with CPython's per-process
randomized string hash.  With two different process hash functions the
selected pair differs on the same prompt, so cross-run stability fails:
the two runs here pick the first and the second palette entry. -/
theorem claim1_palette_process_dependent :
    gradientPair (fun _ => (0 : Int)) "hello" = ("#60a5fa", "#a78bfa")
    ∧ gradientPair (fun _ => (1 : Int)) "hello" = ("#22d3ee", "#818cf8")
    ∧ gradientPair (fun _ => (0 : Int)) "hello" ≠ gradientPair (fun _ => (1 : Int)) "hello" :=
  ⟨rfl, rfl, by decide⟩

/-- Claim C2: each of the three operations answers HTTP 400 with detail
exactly "Prompt is required" iff the prompt trims to empty, and otherwise
returns the success result computed from the trimmed prompt. -/
theorem claim2_validation (pyHash : String → Int) (p : String) :
    ((generate_text p = .error ⟨400, "Prompt is required"⟩) ↔ pyStrip p = "")
    ∧ ((generate_image pyHash p = .error ⟨400, "Prompt is required"⟩) ↔ pyStrip p = "")
    ∧ ((generate_podcast_script p = .error ⟨400, "Prompt is required"⟩) ↔ pyStrip p = "")
    ∧ (pyStrip p ≠ "" →
        (∃ r, generate_text p = .ok r ∧ generate_text (pyStrip p) = .ok r)
        ∧ (∃ r, generate_image pyHash p = .ok r ∧ generate_image pyHash (pyStrip p) = .ok r)
        ∧ (∃ r, generate_podcast_script p = .ok r
            ∧ generate_podcast_script (pyStrip p) = .ok r)) := by
  by_cases h : pyStrip p = ""
  · simp [generate_text_err p h, generate_image_err pyHash p h, generate_script_err p h, h]
  · have hc1 := generate_text_congr (pyStrip p) p (pyStrip_idem p)
    have hc2 := generate_image_congr pyHash (pyStrip p) p (pyStrip_idem p)
    have hc3 := generate_script_congr (pyStrip p) p (pyStrip_idem p)
    refine ⟨?_, ?_, ?_, fun _ => ⟨?_, ?_, ?_⟩⟩
    · rw [generate_text_ok p h]
      simp only [h, iff_false]
      split <;> simp
    · rw [generate_image_ok pyHash p h]
      simp [h]
    · rw [generate_script_ok p h]
      simp [h]
    · have hok : ∃ r, generate_text p = .ok r := by
        rw [generate_text_ok p h]
        split <;> exact ⟨_, rfl⟩
      obtain ⟨r, hr⟩ := hok
      exact ⟨r, hr, by rw [hc1, hr]⟩
    · exact ⟨_, generate_image_ok pyHash p h, by rw [hc2, generate_image_ok pyHash p h]⟩
    · exact ⟨_, generate_script_ok p h, by rw [hc3, generate_script_ok p h]⟩

/-- Witness for C2: a prompt with surrounding whitespace succeeds with the
same result as its trimmed form, and the empty prompt yields the 400 error. -/
theorem claim2_validation_witness :
    (∃ r, generate_text "  hi  " = .ok r ∧ generate_text (pyStrip "  hi  ") = .ok r)
    ∧ ((generate_text "   " = .error ⟨400, "Prompt is required"⟩) ↔ pyStrip "   " = "") :=
  ⟨((claim2_validation (fun _ => 0) "  hi  ").2.2.2 (by decide)).1,
    (claim2_validation (fun _ => 0) "   ").1⟩

/-- Claim C3: for a non-empty trimmed prompt the image data URL is the
base64 SVG data URL; stripping the `data:image/svg+xml;base64,` head and
base64-decoding recovers the UTF-8 bytes of a document that contains
`width='1200'`, `height='675'`, and the first 90 characters of the prompt. -/
theorem claim3_image_data_url (pyHash : String → Int) (p : String) (h : pyStrip p ≠ "") :
    ∃ r, generate_image pyHash p = .ok r ∧
      ∃ doc : String,
        r.data_url = "data:image/svg+xml;base64," ++ String.mk (b64Encode (utf8Bytes doc))
        ∧ b64Decode (b64Encode (utf8Bytes doc)) = some (utf8Bytes doc)
        ∧ containsStr doc "width='1200'"
        ∧ containsStr doc "height='675'"
        ∧ containsStr doc ((pyStrip p).take 90) := by
  refine ⟨_, generate_image_ok pyHash p h, svg_for_prompt pyHash (pyStrip p), rfl,
    b64_roundtrip _ (utf8Bytes_lt256 _), ?_, ?_, ?_⟩
  · simp only [svg_for_prompt]
    iterate 20 apply containsStr_appR
    exact containsStr_left _ _
  · simp only [svg_for_prompt]
    iterate 18 apply containsStr_appR
    exact containsStr_left _ _
  · simp only [svg_for_prompt]
    apply containsStr_appR
    apply containsStr_appL
    exact containsStr_right _ _

/-- Witness for C3 at the prompt "hi" in a process whose hash is constantly 0. -/
theorem claim3_image_data_url_witness :
    ∃ r, generate_image (fun _ => 0) "hi" = .ok r ∧
      ∃ doc : String,
        r.data_url = "data:image/svg+xml;base64," ++ String.mk (b64Encode (utf8Bytes doc))
        ∧ b64Decode (b64Encode (utf8Bytes doc)) = some (utf8Bytes doc)
        ∧ containsStr doc "width='1200'"
        ∧ containsStr doc "height='675'"
        ∧ containsStr doc ((pyStrip "hi").take 90) :=
  claim3_image_data_url (fun _ => 0) "hi" (by decide)

/-- Claim C4: any prompt whose trimmed form matches the reference prompt
case-insensitively gets the fixed reference essay verbatim. -/
theorem claim4_reference_prompt (p : String)
    (h : pyLower (pyStrip p) = pyLower SAMPLE_PROMPT) :
    generate_text p = .ok ⟨pyStrip p, SAMPLE_TEXT⟩ := by
  have hne : pyStrip p ≠ "" := by
    intro h0
    rw [h0] at h
    exact (by decide : ¬(pyLower "" = pyLower SAMPLE_PROMPT)) h
  rw [generate_text_ok p hne, if_pos h]

/-- Witness for C4: the all-uppercase variant of the reference prompt. -/
theorem claim4_reference_prompt_witness :
    pyLower (pyStrip "DESCRIBE THE FUTURE OF AI IN SPACE EXPLORATION, WITH STUNNING VISUALS OF ADVANCED SPACECRAFT.")
        = pyLower SAMPLE_PROMPT
    ∧ generate_text "DESCRIBE THE FUTURE OF AI IN SPACE EXPLORATION, WITH STUNNING VISUALS OF ADVANCED SPACECRAFT."
        = .ok ⟨pyStrip "DESCRIBE THE FUTURE OF AI IN SPACE EXPLORATION, WITH STUNNING VISUALS OF ADVANCED SPACECRAFT.",
            SAMPLE_TEXT⟩ :=
  ⟨by decide, claim4_reference_prompt _ (by decide)⟩

/-- Claim C5: the expansion region appended at the end of the script is
whole copies of the fixed elaboration paragraph (34 of them), with at least
1200 words in total and fewer than 1200 plus one paragraph's words. -/
theorem claim5_expansion (p : String) (h : pyStrip p ≠ "") :
    ∃ r, generate_podcast_script p = .ok r
      ∧ (∃ pre, r.script = pre ++ "\n\n" ++ joinSep "\n\n" (List.replicate 34 elaboration))
      ∧ expandBlocksLoop [] = List.replicate 34 elaboration
      ∧ 1200 ≤ (pySplitWS (joinSep "\n\n" (List.replicate 34 elaboration))).length
      ∧ (pySplitWS (joinSep "\n\n" (List.replicate 34 elaboration))).length
          < 1200 + (pySplitWS elaboration).length := by
  refine ⟨_, generate_script_ok p h,
    ⟨scriptBase (pyStrip p) ++ "\n\n" ++ joinSep "\n\n" (sections.map (pyFill 100)), ?_⟩,
    expandBlocks_eq, ?_, ?_⟩
  · simp only [expandBlocks_eq]
  · rw [count_nn_replicate]
    omega
  · rw [count_nn_replicate, show (pySplitWS elaboration).length = 36 from by decide]
    omega

/-- Witness for C5 at the prompt "hi". -/
theorem claim5_expansion_witness :
    ∃ r, generate_podcast_script "hi" = .ok r
      ∧ (∃ pre, r.script = pre ++ "\n\n" ++ joinSep "\n\n" (List.replicate 34 elaboration))
      ∧ expandBlocksLoop [] = List.replicate 34 elaboration
      ∧ 1200 ≤ (pySplitWS (joinSep "\n\n" (List.replicate 34 elaboration))).length
      ∧ (pySplitWS (joinSep "\n\n" (List.replicate 34 elaboration))).length
          < 1200 + (pySplitWS elaboration).length :=
  claim5_expansion "hi" (by decide)

/-- Claim C6: for every accepted prompt the script response carries
`estimated_minutes = 10`, independent of the prompt. -/
theorem claim6_estimated_minutes (p : String) (h : pyStrip p ≠ "") :
    (generate_podcast_script p).map ScriptResponse.estimated_minutes = .ok 10 := by
  rw [generate_script_ok p h]
  rfl

/-- Witness for C6 at the prompt "  hi  ". -/
theorem claim6_estimated_minutes_witness :
    (generate_podcast_script "  hi  ").map ScriptResponse.estimated_minutes = .ok 10 :=
  claim6_estimated_minutes "  hi  " (by decide)

/-- Claim C7: padding a prompt with leading and trailing whitespace leaves
every field of every operation's output unchanged relative to the trimmed
prompt. -/
theorem claim7_whitespace (pyHash : String → Int) (p u v : String)
    (hu : ∀ c ∈ u.data, isPySpace c) (hv : ∀ c ∈ v.data, isPySpace c) :
    generate_text (u ++ p ++ v) = generate_text (pyStrip p)
    ∧ generate_image pyHash (u ++ p ++ v) = generate_image pyHash (pyStrip p)
    ∧ generate_podcast_script (u ++ p ++ v) = generate_podcast_script (pyStrip p) := by
  have hs : pyStrip (u ++ p ++ v) = pyStrip (pyStrip p) := by
    rw [pyStrip_pad u p v hu hv, pyStrip_idem]
  exact ⟨generate_text_congr _ _ hs, generate_image_congr pyHash _ _ hs,
    generate_script_congr _ _ hs⟩

/-- Witness for C7: spaces before and a tab after the prompt "hi". -/
theorem claim7_whitespace_witness :
    generate_text ("  " ++ "hi" ++ "\t") = generate_text (pyStrip "hi")
    ∧ generate_image (fun _ => 0) ("  " ++ "hi" ++ "\t")
        = generate_image (fun _ => 0) (pyStrip "hi")
    ∧ generate_podcast_script ("  " ++ "hi" ++ "\t")
        = generate_podcast_script (pyStrip "hi") :=
  claim7_whitespace (fun _ => 0) "hi" "  " "\t" (by decide) (by decide)

/-- Claim C8: for an accepted prompt that does not match the reference
prompt, the essay is the templated opening containing the prompt verbatim,
followed by a constant remainder independent of the prompt. -/
theorem claim8_templated_text (p : String) (h1 : pyStrip p ≠ "")
    (h2 : pyLower (pyStrip p) ≠ pyLower SAMPLE_PROMPT) :
    generate_text p
      = .ok ⟨pyStrip p,
          ("Here's a concise vision for '" ++ pyStrip p ++ "':\n\n") ++ visionBodyRest⟩
    ∧ containsStr ("Here's a concise vision for '" ++ pyStrip p ++ "':\n\n") (pyStrip p) := by
  constructor
  · rw [generate_text_ok p h1, if_neg h2]
  · exact containsStr_appR (containsStr_left _ _) _

/-- Witness for C8 at the prompt "hi". -/
theorem claim8_templated_text_witness :
    generate_text "hi"
      = .ok ⟨pyStrip "hi",
          ("Here's a concise vision for '" ++ pyStrip "hi" ++ "':\n\n") ++ visionBodyRest⟩
    ∧ containsStr ("Here's a concise vision for '" ++ pyStrip "hi" ++ "':\n\n") (pyStrip "hi") :=
  claim8_templated_text "hi" (by decide) (by decide)

/-- Claim C9: the script opens with the fixed line when the trimmed prompt
matches the reference prompt case-insensitively and with the templated line
interpolating the (trimmed) prompt otherwise, followed by the fixed ordered
block of the 10 topic sections, then the expansion region. -/
theorem claim9_script_opening (p : String) (h : pyStrip p ≠ "") :
    ∃ r, generate_podcast_script p = .ok r
      ∧ r.script = scriptBase (pyStrip p) ++ "\n\n" ++ joinSep "\n\n" (sections.map (pyFill 100))
          ++ "\n\n" ++ joinSep "\n\n" (expandBlocksLoop [])
      ∧ (pyLower (pyStrip p) = pyLower SAMPLE_PROMPT →
          scriptBase (pyStrip p)
            = "Welcome to AI Power. In today's episode, we explore the future of AI in space exploration—how intelligent systems "
              ++ "will expand our reach and resilience beyond Earth. ")
      ∧ (pyLower (pyStrip p) ≠ pyLower SAMPLE_PROMPT →
          scriptBase (pyStrip p)
            = "Welcome to AI Power. Today's episode explores: " ++ pyStrip p ++ ". ")
      ∧ sections.length = 10 := by
  refine ⟨_, generate_script_ok p h, rfl, fun hm => ?_, fun hm => ?_, rfl⟩
  · simp [scriptBase, hm]
  · simp [scriptBase, hm]

/-- Witness for C9 at the prompt "hi". -/
theorem claim9_script_opening_witness :
    ∃ r, generate_podcast_script "hi" = .ok r
      ∧ r.script = scriptBase (pyStrip "hi") ++ "\n\n"
          ++ joinSep "\n\n" (sections.map (pyFill 100))
          ++ "\n\n" ++ joinSep "\n\n" (expandBlocksLoop [])
      ∧ (pyLower (pyStrip "hi") = pyLower SAMPLE_PROMPT →
          scriptBase (pyStrip "hi")
            = "Welcome to AI Power. In today's episode, we explore the future of AI in space exploration—how intelligent systems "
              ++ "will expand our reach and resilience beyond Earth. ")
      ∧ (pyLower (pyStrip "hi") ≠ pyLower SAMPLE_PROMPT →
          scriptBase (pyStrip "hi")
            = "Welcome to AI Power. Today's episode explores: " ++ pyStrip "hi" ++ ". ")
      ∧ sections.length = 10 :=
  claim9_script_opening "hi" (by decide)

/-- Claim C10: the elaboration paragraph has a positive word count, each
loop iteration adds exactly that many words to the joined block list, and
the expansion loop of `generate_podcast_script` terminates, returning 34
whole copies of the paragraph. -/
theorem claim10_termination :
    0 < (pySplitWS elaboration).length
    ∧ (∀ blocks : List String,
        (pySplitWS (joinSep " " (blocks ++ [elaboration]))).length
          = (pySplitWS (joinSep " " blocks)).length + (pySplitWS elaboration).length)
    ∧ expandBlocksLoop [] = List.replicate 34 elaboration :=
  ⟨by decide, fun blocks => count_space_concat blocks elaboration, expandBlocks_eq⟩

end AIPower
